import Mathlib

/-!
Shallow embedding of the mcp-map-agents query-orchestration system
(src/agents/orchestrator.py, src/servers/{geocoding,routing,tiles}) and
proofs of the specification claims about it.

Conventions of the embedding:
* Python dicts whose keys matter to the program are Lean structures; JSON
  payloads that are passed through opaquely are values of the `JVal` type.
* Every outbound network interaction (httpx calls, the OpenAI completion
  call) is an input to the embedded function: an `HttpResult` value or a
  `Service` script, so all embedded functions are total and executable.
* Wall-clock data (request durations, timestamps) and the precise float
  formatting of human-readable messages are environment effects with no
  bearing on any claim; the usage envelope is modelled as an `Option Unit`
  (present / absent, matching pydantic model_dump with exclude_none) and
  float string interpolation by exact rational printing.
* Python floats are modelled as rationals; the trigonometric haversine
  distance is an abstract parameter of the world (`World.dist`), since no
  claim depends on its numeric values.
-/

/-- An opaquely-passed-through JSON value (geometry blobs, OSM tag objects,
matrix rows, etc.). -/
inductive JVal where
  | null : JVal
  | bool : Bool → JVal
  | num : Rat → JVal
  | str : String → JVal
  | arr : List JVal → JVal
  | obj : List (String × JVal) → JVal
  deriving Repr

/-- Embedding of schemas.ToolResponse (src/agents/schemas.py).  The usage
field of the source carries endpoint / duration_ms / timestamp, which are
environment-derived metrics; only its presence or absence is modelled. -/
structure ToolResponse where
  status : String
  data : Option (List (String × JVal)) := none
  message : Option String := none
  usage : Option Unit := none
  error_code : Option String := none
  deriving Repr

/-- Outcome of one httpx request, as observed by a client method: the two
caught exception classes, or a parsed JSON body. -/
inductive HttpResult (α : Type) where
  | timeout : HttpResult α
  | httpError : String → HttpResult α
  | ok : α → HttpResult α

/-- Python string truthiness for optional tag values: None and the empty
string are falsy. -/
def pyTruthy : Option String → Bool
  | none => false
  | some s => s ≠ ""

/-- Python `a or b` on an optional string with a fallback string. -/
def pyOrStr (a : Option String) (b : String) : String :=
  match a with
  | none => b
  | some s => if s = "" then b else s

/-- Whether the character list starts with the given pattern. -/
def charsPrefix : List Char → List Char → Bool
  | [], _ => true
  | _ :: _, [] => false
  | a :: as, b :: bs => a == b && charsPrefix as bs

/-- Whether the pattern occurs as a contiguous segment of the list. -/
def charsContain (pat : List Char) : List Char → Bool
  | [] => charsPrefix pat []
  | c :: rest => charsPrefix pat (c :: rest) || charsContain pat rest

/-- Python substring containment `pat in s`. -/
def strContains (s pat : String) : Bool :=
  charsContain pat.toList s.toList

/-- Python `int()` truncation toward zero of a rational. -/
def pyInt (q : Rat) : Int :=
  q.num.tdiv q.den

/-- JSON rendering of an optional tag string (None becomes JSON null). -/
def optStr : Option String → JVal
  | none => .null
  | some s => .str s

/-- Parsed body of an OSRM /route response: one entry of the routes array
(src/servers/routing/client.py, OSRMClient.route).  Fields read with
dict.get are optional. -/
structure RouteObj where
  distance : Option Rat := none
  duration : Option Rat := none
  geometry : Option JVal := none
  legs : Option JVal := none

/-- Parsed body of an OSRM /route response; a missing or null routes key is
the empty list (both are falsy to the source's emptiness check). -/
structure RouteBody where
  routes : List RouteObj

/-- Parsed body of an OSRM /table response. -/
structure TableBody where
  code : Option String := none
  message : Option String := none
  distances : Option JVal := none
  durations : Option JVal := none
  sources : Option JVal := none
  destinations : Option JVal := none

/-- Parsed body of an OSRM /match response. -/
structure MatchBody where
  code : Option String := none
  message : Option String := none
  matchings : Option (List JVal) := none
  tracepoints : Option JVal := none

/-- One entry of a Nominatim /search response. -/
structure GeoHit where
  display_name : Option String := none
  lat : Option Rat := none
  lon : Option Rat := none
  importance : Option JVal := none

/-- Parsed body of a Nominatim /reverse response. -/
structure RevBody where
  address : Option JVal := none
  display_name : Option String := none

/-- One OSM element of an Overpass response (tags plus optional
coordinates). -/
structure OsmElement where
  tags : List (String × String) := []
  lat : Option Rat := none
  lon : Option Rat := none

/-- The arguments mapping of a tool invocation.  Each field is one of the
keys read with tool_input.get by some handler; an absent field is an absent
key.  Two-element [latitude, longitude] arrays are modelled as pairs. -/
structure Args where
  query : Option String := none
  limit : Option Int := none
  latitude : Option Rat := none
  longitude : Option Rat := none
  radius : Option Rat := none
  start_latitude : Option Rat := none
  start_longitude : Option Rat := none
  end_latitude : Option Rat := none
  end_longitude : Option Rat := none
  sources : Option (List (Rat × Rat)) := none
  destinations : Option (List (Rat × Rat)) := none
  coordinates : Option (List (Rat × Rat)) := none
  profile : Option String := none
  provider_id : Option String := none

/-- The environment of the backend handlers: the response of each remote
service to a given request, and the haversine distance function (abstract,
since its floating-point trigonometry is not modelled and no claim depends
on its values). -/
structure World where
  routeHttp : Rat → Rat → Rat → Rat → String → HttpResult RouteBody
  tableHttp : List (Rat × Rat) → List (Rat × Rat) → String → HttpResult TableBody
  matchHttp : List (Rat × Rat) → String → HttpResult MatchBody
  searchHttp : String → Int → HttpResult (List GeoHit)
  reverseHttp : Rat → Rat → HttpResult RevBody
  overpass : Rat → Rat → Rat → String → List OsmElement
  dist : Rat → Rat → Rat → Rat → Int

namespace OSRMClient

/-- Embedding of OSRMClient.route (src/servers/routing/client.py). -/
def route (w : World) (start_lat start_lon end_lat end_lon : Rat)
    (profile : String) : ToolResponse :=
  match w.routeHttp start_lat start_lon end_lat end_lon profile with
  | .timeout =>
      { status := "error", message := some "OSRM request timed out",
        error_code := some "TIMEOUT", usage := some () }
  | .httpError e =>
      { status := "error", message := some ("OSRM API error: " ++ e),
        error_code := some "HTTP_ERROR", usage := some () }
  | .ok body =>
      match body.routes with
      | [] =>
          { status := "error", message := some "No route found",
            error_code := some "NO_ROUTE", usage := some () }
      | r0 :: _ =>
          { status := "success"
            data := some [("distance_meters", .num (r0.distance.getD 0)),
                          ("duration_seconds", .num (r0.duration.getD 0)),
                          ("geometry", r0.geometry.getD .null),
                          ("legs", r0.legs.getD .null),
                          ("profile", .str profile)]
            message := some ("Route found: " ++ toString (r0.distance.getD 0 / 1000)
              ++ " km, " ++ toString (r0.duration.getD 0 / 60) ++ " minutes")
            usage := some () }

/-- Embedding of OSRMClient.distance_matrix (src/servers/routing/client.py),
the raw multi-point /table path. -/
def distance_matrix (w : World) (sources destinations : List (Rat × Rat))
    (profile : String) : ToolResponse :=
  if sources.isEmpty || destinations.isEmpty then
    { status := "error", message := some "Sources and destinations must not be empty",
      error_code := some "INVALID_INPUT" }
  else
    match w.tableHttp sources destinations profile with
    | .timeout =>
        { status := "error", message := some "OSRM request timed out",
          error_code := some "TIMEOUT", usage := some () }
    | .httpError e =>
        { status := "error", message := some ("OSRM API error: " ++ e),
          error_code := some "HTTP_ERROR", usage := some () }
    | .ok body =>
        if body.code ≠ some "Ok" then
          { status := "error",
            message := some ("OSRM error: " ++ body.message.getD "Unknown error"),
            error_code := some "OSRM_ERROR", usage := some () }
        else
          { status := "success"
            data := some [("distances", body.distances.getD .null),
                          ("durations", body.durations.getD .null),
                          ("sources", body.sources.getD .null),
                          ("destinations", body.destinations.getD .null),
                          ("profile", .str profile)]
            message := some ("Distance matrix computed for " ++ toString sources.length
              ++ " sources and " ++ toString destinations.length ++ " destinations")
            usage := some () }

/-- Embedding of OSRMClient.match_trace (src/servers/routing/client.py). -/
def match_trace (w : World) (coordinates : List (Rat × Rat))
    (profile : String) : ToolResponse :=
  if coordinates.isEmpty || coordinates.length < 2 then
    { status := "error", message := some "Need at least 2 coordinates",
      error_code := some "INVALID_INPUT" }
  else
    match w.matchHttp coordinates profile with
    | .timeout =>
        { status := "error", message := some "OSRM request timed out",
          error_code := some "TIMEOUT", usage := some () }
    | .httpError e =>
        { status := "error", message := some ("OSRM API error: " ++ e),
          error_code := some "HTTP_ERROR", usage := some () }
    | .ok body =>
        if body.code ≠ some "Ok" then
          { status := "error",
            message := some ("OSRM error: " ++ body.message.getD "Unknown error"),
            error_code := some "OSRM_ERROR", usage := some () }
        else
          { status := "success"
            data := some [("matchings", .arr (body.matchings.getD [])),
                          ("tracepoints", body.tracepoints.getD .null),
                          ("profile", .str profile)]
            message := some ("Matched " ++ toString (body.matchings.getD []).length
              ++ " segment(s)")
            usage := some () }

end OSRMClient

namespace NominatimClient

/-- Embedding of NominatimClient.forward_geocode
(src/servers/geocoding/client.py). -/
def forward_geocode (w : World) (query : String) (limit : Int) : ToolResponse :=
  match w.searchHttp query limit with
  | .timeout =>
      { status := "error", message := some "Nominatim request timed out",
        error_code := some "TIMEOUT", usage := some () }
  | .httpError e =>
      { status := "error", message := some ("Nominatim API error: " ++ e),
        error_code := some "HTTP_ERROR", usage := some () }
  | .ok results =>
      if results.isEmpty then
        { status := "success"
          data := some [("results", .arr []), ("query", .str query)]
          message := some "No results found"
          usage := some () }
      else
        { status := "success"
          data := some [("results", .arr (results.map fun r =>
                          .obj [("name", .str (r.display_name.getD "")),
                                ("latitude", .num (r.lat.getD 0)),
                                ("longitude", .num (r.lon.getD 0)),
                                ("importance", r.importance.getD (.num 0))])),
                        ("query", .str query)]
          message := some ("Found " ++ toString results.length ++ " result(s)")
          usage := some () }

/-- Embedding of NominatimClient.reverse_geocode
(src/servers/geocoding/client.py). -/
def reverse_geocode (w : World) (latitude longitude : Rat) : ToolResponse :=
  match w.reverseHttp latitude longitude with
  | .timeout =>
      { status := "error", message := some "Nominatim request timed out",
        error_code := some "TIMEOUT", usage := some () }
  | .httpError e =>
      { status := "error", message := some ("Nominatim API error: " ++ e),
        error_code := some "HTTP_ERROR", usage := some () }
  | .ok body =>
      { status := "success"
        data := some [("address", body.address.getD (.obj [])),
                      ("display_name", .str (body.display_name.getD "")),
                      ("latitude", .num latitude),
                      ("longitude", .num longitude)]
        message := some "Reverse geocoding successful"
        usage := some () }

/-- The amenity-keyword table of NominatimClient.poi_search, in source
order (Python dicts iterate in insertion order). -/
def amenity_map : List (String × String) :=
  [("restaurant", "amenity=restaurant"),
   ("cafe", "amenity=cafe"),
   ("coffee", "amenity=cafe"),
   ("bar", "amenity=bar"),
   ("pub", "amenity=pub"),
   ("museum", "tourism=museum"),
   ("hotel", "tourism=hotel"),
   ("hospital", "amenity=hospital"),
   ("pharmacy", "amenity=pharmacy"),
   ("park", "leisure=park"),
   ("school", "amenity=school"),
   ("shop", "shop=*"),
   ("grocery", "shop=supermarket|shop=convenience"),
   ("church", "amenity=place_of_worship"),
   ("mosque", "amenity=place_of_worship;religion=muslim")]

/-- The progressive-radius loop of poi_search: try each radius in turn and
stop at the first non-empty Overpass result; like the Python for loop, the
loop variable keeps the last tried radius when every attempt is empty. -/
def search_loop (w : World) (latitude longitude : Rat) (tag : String) :
    List Rat → Rat × List OsmElement
  | [] => (0, [])
  | [r] => (r, w.overpass latitude longitude r tag)
  | r :: r2 :: rest =>
      match w.overpass latitude longitude r tag with
      | [] => search_loop w latitude longitude tag (r2 :: rest)
      | e :: es => (r, e :: es)

/-- Optional contact details of a formatted POI entry. -/
structure POIDetails where
  phone : Option String
  website : Option String
  opening_hours : Option String

/-- One formatted POI result (the dict built inside poi_search). -/
structure POIEntry where
  name : String
  latitude : Rat
  longitude : Rat
  type : String
  distance_meters : Int
  details : Option POIDetails

/-- Formatting of one OSM element inside poi_search; elements without
coordinates are skipped (the source's continue). -/
def format_entry (w : World) (latitude longitude : Rat) (elem : OsmElement) :
    Option POIEntry :=
  match elem.lat, elem.lon with
  | some lat, some lon =>
      some { name := (elem.tags.lookup "name").getD ((elem.tags.lookup "brand").getD "Unnamed")
             latitude := lat
             longitude := lon
             type := pyOrStr (elem.tags.lookup "amenity")
               (pyOrStr (elem.tags.lookup "tourism")
                 (pyOrStr (elem.tags.lookup "leisure") "POI"))
             distance_meters := w.dist latitude longitude lat lon
             details :=
               if pyTruthy (elem.tags.lookup "phone")
                   || pyTruthy (elem.tags.lookup "website")
                   || pyTruthy (elem.tags.lookup "opening_hours") then
                 some ⟨elem.tags.lookup "phone", elem.tags.lookup "website",
                       elem.tags.lookup "opening_hours"⟩
               else none }
  | _, _ => none

/-- The formatted result list of poi_search before sorting. -/
def formatted_results (w : World) (latitude longitude : Rat)
    (elems : List OsmElement) : List POIEntry :=
  elems.filterMap (format_entry w latitude longitude)

/-- The stable sort of the formatted results by distance_meters
(Python list.sort with that key). -/
def sorted_results (entries : List POIEntry) : List POIEntry :=
  entries.mergeSort (fun a b => a.distance_meters ≤ b.distance_meters)

/-- JSON rendering of a formatted POI entry as it appears in the data
payload. -/
def poi_entry_json (e : POIEntry) : JVal :=
  .obj [("name", .str e.name),
        ("latitude", .num e.latitude),
        ("longitude", .num e.longitude),
        ("type", .str e.type),
        ("distance_meters", .num e.distance_meters),
        ("details",
          match e.details with
          | none => .null
          | some d => .obj [("phone", optStr d.phone),
                            ("website", optStr d.website),
                            ("opening_hours", optStr d.opening_hours)])]

/-- The amenity-tag detection of poi_search: first amenity_map key that is
a substring of the lowercased, stripped query, else the name-search tag
built from the original query. -/
def amenity_tag_of (query : String) : String :=
  match amenity_map.find? (fun kv => strContains (query.toLower.trim) kv.1) with
  | some kv => kv.2
  | none => "name~\"" ++ query ++ "\",i"

/-- The progressively larger radii tried by poi_search. -/
def search_radii (radius : Rat) : List Rat :=
  [radius, radius * (3/2), radius * 3, radius * 5]

/-- The (final search radius, found elements) pair of the poi_search radius
loop. -/
def poi_found (w : World) (query : String) (latitude longitude radius : Rat) :
    Rat × List OsmElement :=
  search_loop w latitude longitude (amenity_tag_of query) (search_radii radius)

/-- Embedding of NominatimClient.poi_search
(src/servers/geocoding/client.py). -/
def poi_search (w : World) (query : String) (latitude longitude : Rat)
    (radius : Rat) : ToolResponse :=
  match (poi_found w query latitude longitude radius).2 with
  | [] =>
      { status := "success"
        data := some [("results", .arr []), ("query", .str query),
                      ("center", .arr [.num latitude, .num longitude])]
        message := some ("No " ++ query ++ "(s) found within "
          ++ toString (pyInt (radius * 5)) ++ "m radius. Try a different search term.")
        usage := some () }
  | e :: es =>
      { status := "success"
        data := some [("results", .arr
                        (((sorted_results (formatted_results w latitude longitude (e :: es))).take 10).map
                          poi_entry_json)),
                      ("query", .str query),
                      ("center", .arr [.num latitude, .num longitude]),
                      ("search_radius_meters", .num (pyInt (poi_found w query latitude longitude radius).1)),
                      ("total_found", .num (formatted_results w latitude longitude (e :: es)).length)]
        message := some ("Found " ++ toString (formatted_results w latitude longitude (e :: es)).length
          ++ " " ++ query ++ "(s) near the location (showing top 10)")
        usage := some () }

end NominatimClient

/-- A static tile provider entry of TILE_PROVIDERS
(src/servers/tiles/providers.py). -/
structure TileProvider where
  name : String
  description : String
  url_template : String
  min_zoom : Int
  max_zoom : Int
  attribution : String
  license : String

namespace Tiles

/-- The TILE_PROVIDERS table of src/servers/tiles/providers.py, in source
order. -/
def TILE_PROVIDERS : List (String × TileProvider) :=
  [("openstreetmap",
    ⟨"OpenStreetMap", "The Free and Open Collaborative Mapping Project",
     "https://tile.openstreetmap.org/{z}/{x}/{y}.png", 0, 19,
     "&copy; OpenStreetMap contributors", "ODbL"⟩),
   ("stamen_toner",
    ⟨"Stamen Toner", "Minimalist map tiles",
     "https://tiles.stadiamaps.com/tiles/stamen_toner/{z}/{x}/{y}.png", 0, 20,
     "Map tiles by Stadia Maps, Data by OpenStreetMap", "CC BY 3.0"⟩),
   ("stamen_tonerbackground",
    ⟨"Stamen Toner Background", "Toner map without labels",
     "https://tiles.stadiamaps.com/tiles/stamen_toner_background/{z}/{x}/{y}.png", 0, 20,
     "Map tiles by Stadia Maps, Data by OpenStreetMap", "CC BY 3.0"⟩),
   ("carto_positron",
    ⟨"CARTO Positron", "Light basemap with detailed labels",
     "https://cartodb-basemaps-a.global.ssl.fastly.net/light_all/{z}/{x}/{y}.png", 0, 19,
     "&copy; OpenStreetMap contributors &copy; CARTO", "CC BY 4.0"⟩),
   ("carto_voyager",
    ⟨"CARTO Voyager", "Colorful and detailed basemap",
     "https://cartodb-basemaps-a.global.ssl.fastly.net/rastered_and_labels/{z}/{x}/{y}.png", 0, 19,
     "&copy; OpenStreetMap contributors &copy; CARTO", "CC BY 4.0"⟩),
   ("usgs_topo",
    ⟨"USGS Topo", "USGS topographic maps",
     "https://basemap.nationalmap.gov/arcgis/rest/services/USGSTopo/MapServer/tile/{z}/{y}/{x}", 0, 16,
     "USGS", "Public Domain"⟩)]

/-- Embedding of providers.get_tile_provider: dictionary lookup by id. -/
def get_tile_provider (provider_id : String) : Option TileProvider :=
  TILE_PROVIDERS.lookup provider_id

/-- JSON rendering of a provider record (its dict in the source). -/
def provider_json (p : TileProvider) : List (String × JVal) :=
  [("name", .str p.name),
   ("description", .str p.description),
   ("url_template", .str p.url_template),
   ("min_zoom", .num p.min_zoom),
   ("max_zoom", .num p.max_zoom),
   ("attribution", .str p.attribution),
   ("license", .str p.license)]

/-- Embedding of providers.get_provider_info: the provider dict merged with
its id, or None when the id is unknown. -/
def get_provider_info (provider_id : String) : Option (List (String × JVal)) :=
  (get_tile_provider provider_id).map (fun p => provider_json p ++ [("id", .str provider_id)])

/-- Embedding of providers.get_attribution. -/
def get_attribution (provider_id : String) : Option String :=
  (get_tile_provider provider_id).map (fun p => p.attribution)

end Tiles

/-- One OpenAI tool specification as returned by get_geocoding_tools,
get_routing_tools and get_tiles_tools.  The source dict
is nested as type / function {name, description, parameters}; the
constant "type": "function" wrapper and the function object are flattened
into one record, with the JSON parameter schema carried as a JVal. -/
structure ToolSpecification where
  type : String := "function"
  name : String
  description : String
  parameters : JVal

/-- Embedding of get_geocoding_tools (src/servers/geocoding/tools.py). -/
def get_geocoding_tools : List ToolSpecification :=
  [{ name := "forward_geocode"
     description := "Convert an address or place name to geographic coordinates (latitude/longitude)"
     parameters := .obj
       [("type", .str "object"),
        ("properties", .obj
          [("query", .obj [("type", .str "string"),
             ("description", .str "The address or place name to geocode (e.g., 'New York City', '1600 Pennsylvania Avenue')")]),
           ("limit", .obj [("type", .str "integer"),
             ("description", .str "Maximum number of results to return (default: 5)"),
             ("default", .num 5)])]),
        ("required", .arr [.str "query"])] },
   { name := "reverse_geocode"
     description := "Convert geographic coordinates (latitude/longitude) to an address"
     parameters := .obj
       [("type", .str "object"),
        ("properties", .obj
          [("latitude", .obj [("type", .str "number"),
             ("description", .str "Latitude in decimal degrees (e.g., 40.7128)")]),
           ("longitude", .obj [("type", .str "number"),
             ("description", .str "Longitude in decimal degrees (e.g., -74.0060)")])]),
        ("required", .arr [.str "latitude", .str "longitude"])] },
   { name := "poi_search"
     description := "Search for points of interest (restaurants, hotels, landmarks, etc.) near a location"
     parameters := .obj
       [("type", .str "object"),
        ("properties", .obj
          [("query", .obj [("type", .str "string"),
             ("description", .str "The type of POI to search for (e.g., 'restaurants', 'hotels', 'museums')")]),
           ("latitude", .obj [("type", .str "number"),
             ("description", .str "Latitude of the center point")]),
           ("longitude", .obj [("type", .str "number"),
             ("description", .str "Longitude of the center point")]),
           ("radius", .obj [("type", .str "number"),
             ("description", .str "Search radius in meters (default: 1000)"),
             ("default", .num 1000)])]),
        ("required", .arr [.str "query", .str "latitude", .str "longitude"])] }]

/-- The 2-element coordinate-pair array schema used by the routing tool
parameters. -/
def coord_pair_schema : JVal :=
  .obj [("type", .str "array"), ("minItems", .num 2), ("maxItems", .num 2),
        ("items", .obj [("type", .str "number")])]

/-- The routing-profile enum schema shared by the routing tools. -/
def profile_schema : JVal :=
  .obj [("type", .str "string"),
        ("description", .str "Routing profile: 'car', 'bike', or 'foot'"),
        ("enum", .arr [.str "car", .str "bike", .str "foot"]),
        ("default", .str "car")]

/-- Embedding of get_routing_tools (src/servers/routing/tools.py). -/
def get_routing_tools : List ToolSpecification :=
  [{ name := "route"
     description := "Calculate the best route between two points"
     parameters := .obj
       [("type", .str "object"),
        ("properties", .obj
          [("start_latitude", .obj [("type", .str "number"),
             ("description", .str "Starting latitude (e.g., 40.7128)")]),
           ("start_longitude", .obj [("type", .str "number"),
             ("description", .str "Starting longitude (e.g., -74.0060)")]),
           ("end_latitude", .obj [("type", .str "number"),
             ("description", .str "Ending latitude")]),
           ("end_longitude", .obj [("type", .str "number"),
             ("description", .str "Ending longitude")]),
           ("profile", profile_schema)]),
        ("required", .arr [.str "start_latitude", .str "start_longitude",
                           .str "end_latitude", .str "end_longitude"])] },
   { name := "distance_matrix"
     description := "Calculate distances and travel times between multiple source and destination points"
     parameters := .obj
       [("type", .str "object"),
        ("properties", .obj
          [("sources", .obj [("type", .str "array"),
             ("description", .str "List of [latitude, longitude] pairs for source points"),
             ("items", coord_pair_schema)]),
           ("destinations", .obj [("type", .str "array"),
             ("description", .str "List of [latitude, longitude] pairs for destination points"),
             ("items", coord_pair_schema)]),
           ("profile", profile_schema)]),
        ("required", .arr [.str "sources", .str "destinations"])] },
   { name := "match_trace"
     description := "Match a GPS trace (sequence of coordinates) to the road network"
     parameters := .obj
       [("type", .str "object"),
        ("properties", .obj
          [("coordinates", .obj [("type", .str "array"),
             ("description", .str "List of [latitude, longitude] pairs representing the trace"),
             ("items", coord_pair_schema)]),
           ("profile", profile_schema)]),
        ("required", .arr [.str "coordinates"])] }]

/-- Embedding of get_tiles_tools (src/servers/tiles/tools.py). -/
def get_tiles_tools : List ToolSpecification :=
  [{ name := "list_tile_providers"
     description := "List all available tile layer providers with basic information"
     parameters := .obj
       [("type", .str "object"), ("properties", .obj []), ("required", .arr [])] },
   { name := "get_tile_provider_info"
     description := "Get detailed information about a specific tile provider including URL template and attribution"
     parameters := .obj
       [("type", .str "object"),
        ("properties", .obj
          [("provider_id", .obj [("type", .str "string"),
             ("description", .str "The ID of the tile provider (e.g., 'openstreetmap', 'carto_positron')")])]),
        ("required", .arr [.str "provider_id"])] },
   { name := "get_tile_attribution"
     description := "Get the attribution/credit string for a specific tile provider"
     parameters := .obj
       [("type", .str "object"),
        ("properties", .obj
          [("provider_id", .obj [("type", .str "string"),
             ("description", .str "The ID of the tile provider")])]),
        ("required", .arr [.str "provider_id"])] }]

/-- Embedding of handle_geocoding_tool (src/servers/geocoding/tools.py). -/
def handle_geocoding_tool (w : World) (tool_name : String) (tool_input : Args) :
    ToolResponse :=
  if tool_name = "forward_geocode" then
    NominatimClient.forward_geocode w (tool_input.query.getD "") (tool_input.limit.getD 5)
  else if tool_name = "reverse_geocode" then
    NominatimClient.reverse_geocode w (tool_input.latitude.getD 0) (tool_input.longitude.getD 0)
  else if tool_name = "poi_search" then
    NominatimClient.poi_search w (tool_input.query.getD "")
      (tool_input.latitude.getD 0) (tool_input.longitude.getD 0) (tool_input.radius.getD 1000)
  else
    { status := "error", message := some ("Unknown tool: " ++ tool_name) }

/-- Embedding of handle_routing_tool (src/servers/routing/tools.py),
including the single-pair optimization of distance_matrix. -/
def handle_routing_tool (w : World) (tool_name : String) (tool_input : Args) :
    ToolResponse :=
  if tool_name = "route" then
    OSRMClient.route w (tool_input.start_latitude.getD 0) (tool_input.start_longitude.getD 0)
      (tool_input.end_latitude.getD 0) (tool_input.end_longitude.getD 0)
      (tool_input.profile.getD "car")
  else if tool_name = "distance_matrix" then
    match tool_input.sources.getD [], tool_input.destinations.getD [] with
    | [s], [d] =>
        OSRMClient.route w s.1 s.2 d.1 d.2 (tool_input.profile.getD "car")
    | sources, destinations =>
        OSRMClient.distance_matrix w sources destinations (tool_input.profile.getD "car")
  else if tool_name = "match_trace" then
    OSRMClient.match_trace w (tool_input.coordinates.getD []) (tool_input.profile.getD "car")
  else
    { status := "error", message := some ("Unknown tool: " ++ tool_name) }

/-- Embedding of handle_tiles_tool (src/servers/tiles/tools.py). -/
def handle_tiles_tool (tool_name : String) (tool_input : Args) : ToolResponse :=
  if tool_name = "list_tile_providers" then
    { status := "success"
      data := some [("providers", .arr (Tiles.TILE_PROVIDERS.map fun kv =>
                      .obj [("id", .str kv.1),
                            ("name", .str kv.2.name),
                            ("description", .str kv.2.description)])),
                    ("count", .num Tiles.TILE_PROVIDERS.length)]
      message := some ("Found " ++ toString Tiles.TILE_PROVIDERS.length ++ " tile providers") }
  else if tool_name = "get_tile_provider_info" then
    match Tiles.get_provider_info (tool_input.provider_id.getD "") with
    | none =>
        { status := "error"
          message := some ("Provider '" ++ tool_input.provider_id.getD "" ++ "' not found")
          error_code := some "NOT_FOUND" }
    | some info =>
        { status := "success", data := some info
          message := some ("Provider information for " ++ tool_input.provider_id.getD "") }
  else if tool_name = "get_tile_attribution" then
    match Tiles.get_attribution (tool_input.provider_id.getD "") with
    | none =>
        { status := "error"
          message := some ("Provider '" ++ tool_input.provider_id.getD "" ++ "' not found")
          error_code := some "NOT_FOUND" }
    | some attribution =>
        { status := "success"
          data := some [("provider_id", .str (tool_input.provider_id.getD "")),
                        ("attribution", .str attribution)]
          message := some ("Attribution for " ++ tool_input.provider_id.getD "") }
  else
    { status := "error", message := some ("Unknown tool: " ++ tool_name)
      error_code := some "UNKNOWN_TOOL" }

namespace Orchestrator

/-- A tool-invocation request produced by the completion service
(response.choices[0].message.tool_calls entries).  The arguments JSON
string and its json.loads round-trip are modelled by carrying the parsed
arguments record directly. -/
structure ToolCall (Args : Type) where
  id : String
  name : String
  arguments : Args

/-- A turn of the conversation transcript (the messages list of
process_query).  The json.dumps serialization of a tool result to the
content of a tool turn is modelled by carrying the structured result. -/
inductive Turn (Args : Type) where
  | system : String → Turn Args
  | user : String → Turn Args
  | assistantCalls : List (ToolCall Args) → Turn Args
  | toolOut : String → ToolResponse → Turn Args

/-- Embedding of MapAgentOrchestrator._build_tools generalized over the
provider catalogs it concatenates (the source body is three tools.extend
calls in fixed provider order: geocoding, routing, tiles, with no
validation of any kind). -/
def build_tools_from (geocoding routing tiles : List ToolSpecification) :
    List ToolSpecification :=
  geocoding ++ routing ++ tiles

/-- Embedding of MapAgentOrchestrator._build_tools applied to the real
provider catalogs. -/
def build_tools : List ToolSpecification :=
  build_tools_from get_geocoding_tools get_routing_tools get_tiles_tools

/-- Embedding of orchestrator construction (MapAgentOrchestrator.__init__)
generalized over the provider catalogs: the constructor only stores the
model name, creates the client and assembles the tool list, so it returns
ok on every input — there is no failure path.  The Except codomain gives
the claim about failing at startup something to range over. -/
def init_orchestrator (geocoding routing tiles : List ToolSpecification) :
    Except String (List ToolSpecification) :=
  .ok (build_tools_from geocoding routing tiles)

/-- Embedding of MapAgentOrchestrator._prune_message_history: keep the
transcript unchanged when it has at most two turns, otherwise keep exactly
the first two turns (system directive and original user message). -/
def prune_message_history {Args : Type} (messages : List (Turn Args)) : List (Turn Args) :=
  if messages.length ≤ 2 then messages
  else messages.take 2

/-- Embedding of MapAgentOrchestrator._execute_tool
(src/agents/orchestrator.py): first-match routing by static category
membership, with the unknown-tool fallback.  The function is total, so a
name outside every category cannot raise. -/
def execute_tool (w : World) (tool_name : String) (tool_input : Args) : ToolResponse :=
  if tool_name ∈ ["forward_geocode", "reverse_geocode", "poi_search"] then
    handle_geocoding_tool w tool_name tool_input
  else if tool_name ∈ ["route", "distance_matrix", "match_trace"] then
    handle_routing_tool w tool_name tool_input
  else if tool_name ∈ ["list_tile_providers", "get_tile_provider_info", "get_tile_attribution"] then
    handle_tiles_tool tool_name tool_input
  else
    { status := "error", message := some ("Unknown tool: " ++ tool_name) }

/-- The system directive of MapAgentOrchestrator.__init__. -/
def system_prompt : String :=
  "You are a helpful map assistant that helps users with geographic queries.\nYou have access to three map services:\n\n1. **Geocoding Service** - For converting addresses to coordinates and vice versa, plus POI search\n2. **Routing Service** - For calculating routes between locations, distance matrices, and trace matching\n3. **Tiles/Metadata Service** - For information about map tile providers\n\nWhen a user asks a question:\n1. Identify which service(s) are most relevant\n2. Call the appropriate tool(s) with the correct parameters\n3. Present the results in a clear, concise way with proper units (km, minutes, meters)\n4. When reporting distances, refer to them as \"between [location A] and [location B]\" - do NOT say \"from your location\" since you don't know the user's location\n5. Always include units in your responses (km for distance, minutes for time, meters for short distances)\n\nBe conversational and helpful. If something fails, explain what went wrong clearly."

/-- The fixed user-facing message returned when a completion-service call
exceeds the 60-second bounded wait. -/
def timeout_message : String :=
  "Request timed out. The API took too long to respond. Please try again."

/-- One entry of the tool_calls_made audit list of process_query. -/
structure ToolCallRecord where
  tool : String
  input : Args
  result : ToolResponse

/-- The relevant content of one completion-service response:
choices[0].finish_reason, choices[0].message.content and
choices[0].message.tool_calls (None modelled as the empty list; both are
falsy to the source's check). -/
structure Reply where
  finish_reason : String
  content : Option String
  tool_calls : List (ToolCall Args)

/-- Outcome of one submission to the completion service under
asyncio.wait_for: the bounded wait elapses, the call raises, or a response
arrives.  Whether a raised exception is the capacity-exceeded condition is
decided, as in the source, by substring search for
context_length_exceeded in its text. -/
inductive SubmitOutcome where
  | timeout : SubmitOutcome
  | exc : String → SubmitOutcome
  | reply : Reply → SubmitOutcome

/-- The completion service as seen by the loop: a response for each
(submission index, submitted transcript) pair. -/
def Service : Type := Nat → List (Turn Args) → SubmitOutcome

/-- Result of the agentic loop.  Besides the outcome of the source function
(a returned (text, records) pair, or a propagated exception), it carries
the ordered log of every transcript submitted to the completion service,
which the claims about submission behaviour observe. -/
inductive LoopOutcome where
  | done : String → List ToolCallRecord → List (List (Turn Args)) → LoopOutcome
  | raised : String → List (List (Turn Args)) → LoopOutcome
  | fuelOut : List (List (Turn Args)) → LoopOutcome

/-- The submission log of a loop outcome. -/
def LoopOutcome.submittedLog : LoopOutcome → List (List (Turn Args))
  | .done _ _ s => s
  | .raised _ s => s
  | .fuelOut s => s

/-- The response text of a loop outcome that returned normally. -/
def LoopOutcome.answer : LoopOutcome → Option String
  | .done t _ _ => some t
  | _ => none

/-- The inner for-loop of process_query over the tool calls of one model
turn: for each request in the order received, execute the tool, append its
ToolCallRecord, and append its tool-result turn, before the next request
is dispatched. -/
def process_tool_calls (w : World) :
    List (ToolCall Args) → List ToolCallRecord → List (Turn Args) →
      List ToolCallRecord × List (Turn Args)
  | [], records, messages => (records, messages)
  | tc :: rest, records, messages =>
      let tool_result := execute_tool w tc.name tc.arguments
      process_tool_calls w rest
        (records ++ [⟨tc.name, tc.arguments, tool_result⟩])
        (messages ++ [Turn.toolOut tc.id tool_result])

/-- The response-interpretation tail of one loop iteration: finish_reason
stop (or a response without tool calls) terminates with the content text
(empty string when None); otherwise the assistant turn recording the
requests is appended, the requests are dispatched in order, and the loop
continues. -/
def after_response (w : World) (r : Reply) (messages : List (Turn Args))
    (records : List ToolCallRecord) (submitted : List (List (Turn Args)))
    (continue_loop : List (Turn Args) → List ToolCallRecord → LoopOutcome) :
    LoopOutcome :=
  if r.finish_reason = "stop" then
    .done (r.content.getD "") records submitted
  else
    match r.tool_calls with
    | [] => .done (r.content.getD "") records submitted
    | tc :: rest =>
        let step := process_tool_calls w (tc :: rest) records
          (messages ++ [Turn.assistantCalls (tc :: rest)])
        continue_loop step.2 step.1

/-- The pruning gate at the top of each loop iteration of process_query:
the transcript actually submitted is the pruned one when the length
exceeds the fixed threshold of 14 turns. -/
def effective_messages (messages : List (Turn Args)) : List (Turn Args) :=
  if messages.length > 14 then prune_message_history messages else messages

/-- The while-loop of process_query (src/agents/orchestrator.py), with an
explicit fuel bound standing for the unbounded iteration (the source loop
has no iteration cap): prune when the transcript exceeds 14 turns, submit,
handle timeout (return the fixed message and the accumulated records) and
the capacity-exceeded condition (collapse to the first two turns and
resubmit once; a timeout of that resubmission returns the fixed message,
any other exception of it propagates, as does any non-capacity exception
of the first submission), then interpret the response. -/
def run_loop (svc : Service) (w : World) :
    Nat → Nat → List (Turn Args) → List ToolCallRecord →
      List (List (Turn Args)) → LoopOutcome
  | 0, _, _, _, submitted => .fuelOut submitted
  | fuel + 1, call_index, messages, records, submitted =>
      match svc call_index (effective_messages messages) with
      | .timeout =>
          .done timeout_message records (submitted ++ [effective_messages messages])
      | .exc e =>
          if strContains e "context_length_exceeded" then
            match svc (call_index + 1) ((effective_messages messages).take 2) with
            | .timeout =>
                .done timeout_message records
                  (submitted ++ [effective_messages messages,
                                 (effective_messages messages).take 2])
            | .exc e2 =>
                .raised e2
                  (submitted ++ [effective_messages messages,
                                 (effective_messages messages).take 2])
            | .reply r =>
                after_response w r ((effective_messages messages).take 2) records
                  (submitted ++ [effective_messages messages,
                                 (effective_messages messages).take 2])
                  (fun ms rs =>
                    run_loop svc w fuel (call_index + 2) ms rs
                      (submitted ++ [effective_messages messages,
                                     (effective_messages messages).take 2]))
          else .raised e (submitted ++ [effective_messages messages])
      | .reply r =>
          after_response w r (effective_messages messages) records
            (submitted ++ [effective_messages messages])
            (fun ms rs =>
              run_loop svc w fuel (call_index + 1) ms rs
                (submitted ++ [effective_messages messages]))

/-- Embedding of MapAgentOrchestrator.process_query: start the loop from
the two-turn transcript of the system directive and the user message, with
empty record and submission logs. -/
def process_query (svc : Service) (w : World) (fuel : Nat)
    (user_message : String) : LoopOutcome :=
  run_loop svc w fuel 0 [Turn.system system_prompt, Turn.user user_message] [] []

end Orchestrator

/-- C8: Pruning is idempotent: for every transcript, applying the prune
operation twice yields the same result as applying it once; in particular,
pruning an already-pruned two-turn transcript returns it unchanged. -/
theorem prune_idempotent {Args : Type} (messages : List (Orchestrator.Turn Args)) :
    Orchestrator.prune_message_history (Orchestrator.prune_message_history messages)
      = Orchestrator.prune_message_history messages
    ∧ (messages.length = 2 → Orchestrator.prune_message_history messages = messages) := by
  constructor
  · unfold Orchestrator.prune_message_history
    by_cases h : messages.length ≤ 2
    · simp [h]
    · have hlen : (messages.take 2).length ≤ 2 := by
        simp [List.length_take]
      simp [h, hlen]
  · intro h
    unfold Orchestrator.prune_message_history
    simp [h]

/-- A concrete two-turn transcript for the pruning witness. -/
def two_turn_transcript : List (Orchestrator.Turn Args) :=
  [Orchestrator.Turn.system "s", Orchestrator.Turn.user "u"]

/-- Witness for C8: evaluates the pruning theorem on a concrete two-turn
transcript. -/
theorem prune_idempotent_witness :
    Orchestrator.prune_message_history (Orchestrator.prune_message_history two_turn_transcript)
      = Orchestrator.prune_message_history two_turn_transcript
    ∧ (two_turn_transcript.length = 2 →
        Orchestrator.prune_message_history two_turn_transcript = two_turn_transcript) :=
  prune_idempotent two_turn_transcript

/-- A concrete environment used by witnesses: every remote call succeeds
with a small fixed body. -/
def test_element : OsmElement :=
  { tags := [("name", "Cafe One"), ("amenity", "cafe")], lat := some 1, lon := some 2 }

/-- A second concrete element, farther away, for sortedness witnesses. -/
def test_element2 : OsmElement :=
  { tags := [("name", "Cafe Two"), ("amenity", "cafe")], lat := some 3, lon := some 4 }

/-- The concrete world of the witnesses. -/
def test_world : World :=
  { routeHttp := fun _ _ _ _ _ =>
      .ok ⟨[{ distance := some 1500, duration := some 120 }]⟩
    tableHttp := fun _ _ _ => .ok { code := some "Ok" }
    matchHttp := fun _ _ => .ok { code := some "Ok" }
    searchHttp := fun _ _ => .ok [{ display_name := some "Springfield" }]
    reverseHttp := fun _ _ => .ok { display_name := some "Main St" }
    overpass := fun _ _ _ _ => [test_element2, test_element]
    dist := fun _ _ lat _ => 100 * lat.num }

/-- The ToolResult envelope invariant of the specification: an error
result carries no data and a success result carries no error code. -/
def result_invariant (r : ToolResponse) : Prop :=
  (r.status = "error" → r.data = none) ∧ (r.status = "success" → r.error_code = none)

/-- Every literal error envelope of the handlers satisfies the invariant. -/
theorem result_invariant_of_error {r : ToolResponse} (hs : r.status = "error")
    (hd : r.data = none) : result_invariant r :=
  ⟨fun _ => hd, fun h => absurd (hs.symm.trans h) (by decide)⟩

/-- Every literal success envelope of the handlers satisfies the
invariant. -/
theorem result_invariant_of_success {r : ToolResponse} (hs : r.status = "success")
    (he : r.error_code = none) : result_invariant r :=
  ⟨fun h => absurd (hs.symm.trans h) (by decide), fun _ => he⟩

/-- OSRMClient.route satisfies the envelope invariant on every input. -/
theorem route_result_invariant (w : World) (a b c d : Rat) (p : String) :
    result_invariant (OSRMClient.route w a b c d p) := by
  unfold OSRMClient.route
  rcases w.routeHttp a b c d p with _ | e | body <;> try dsimp only
  · exact result_invariant_of_error rfl rfl
  · exact result_invariant_of_error rfl rfl
  · rcases body.routes with _ | ⟨r0, rs⟩ <;> try dsimp only
    · exact result_invariant_of_error rfl rfl
    · exact result_invariant_of_success rfl rfl

/-- OSRMClient.distance_matrix satisfies the envelope invariant on every
input. -/
theorem distance_matrix_result_invariant (w : World)
    (sources destinations : List (Rat × Rat)) (p : String) :
    result_invariant (OSRMClient.distance_matrix w sources destinations p) := by
  unfold OSRMClient.distance_matrix
  split
  · exact result_invariant_of_error rfl rfl
  · rcases w.tableHttp sources destinations p with _ | e | body <;> try dsimp only
    · exact result_invariant_of_error rfl rfl
    · exact result_invariant_of_error rfl rfl
    · split
      · exact result_invariant_of_error rfl rfl
      · exact result_invariant_of_success rfl rfl

/-- OSRMClient.match_trace satisfies the envelope invariant on every
input. -/
theorem match_trace_result_invariant (w : World)
    (coordinates : List (Rat × Rat)) (p : String) :
    result_invariant (OSRMClient.match_trace w coordinates p) := by
  unfold OSRMClient.match_trace
  split
  · exact result_invariant_of_error rfl rfl
  · rcases w.matchHttp coordinates p with _ | e | body <;> try dsimp only
    · exact result_invariant_of_error rfl rfl
    · exact result_invariant_of_error rfl rfl
    · split
      · exact result_invariant_of_error rfl rfl
      · exact result_invariant_of_success rfl rfl

/-- NominatimClient.forward_geocode satisfies the envelope invariant on
every input. -/
theorem forward_geocode_result_invariant (w : World) (q : String) (lim : Int) :
    result_invariant (NominatimClient.forward_geocode w q lim) := by
  unfold NominatimClient.forward_geocode
  rcases w.searchHttp q lim with _ | e | results <;> try dsimp only
  · exact result_invariant_of_error rfl rfl
  · exact result_invariant_of_error rfl rfl
  · split
    · exact result_invariant_of_success rfl rfl
    · exact result_invariant_of_success rfl rfl

/-- NominatimClient.reverse_geocode satisfies the envelope invariant on
every input. -/
theorem reverse_geocode_result_invariant (w : World) (la lo : Rat) :
    result_invariant (NominatimClient.reverse_geocode w la lo) := by
  unfold NominatimClient.reverse_geocode
  rcases w.reverseHttp la lo with _ | e | body <;> try dsimp only
  · exact result_invariant_of_error rfl rfl
  · exact result_invariant_of_error rfl rfl
  · exact result_invariant_of_success rfl rfl

/-- NominatimClient.poi_search satisfies the envelope invariant on every
input. -/
theorem poi_search_result_invariant (w : World) (q : String) (la lo r : Rat) :
    result_invariant (NominatimClient.poi_search w q la lo r) := by
  unfold NominatimClient.poi_search
  rcases (NominatimClient.poi_found w q la lo r).2 with _ | ⟨e, es⟩ <;> try dsimp only
  · exact result_invariant_of_success rfl rfl
  · exact result_invariant_of_success rfl rfl

/-- C3: For every tool result produced by any of the three backend handlers
(geocoding, routing, tiles) on any tool name and any arguments, if status
is error then the data field is absent, and if status is success then the
error_code field is absent. -/
theorem handlers_result_invariant (w : World) (tool_name : String) (tool_input : Args) :
    result_invariant (handle_geocoding_tool w tool_name tool_input)
    ∧ result_invariant (handle_routing_tool w tool_name tool_input)
    ∧ result_invariant (handle_tiles_tool tool_name tool_input) := by
  refine ⟨?_, ?_, ?_⟩
  · unfold handle_geocoding_tool
    split
    · exact forward_geocode_result_invariant ..
    split
    · exact reverse_geocode_result_invariant ..
    split
    · exact poi_search_result_invariant ..
    · exact result_invariant_of_error rfl rfl
  · unfold handle_routing_tool
    split
    · exact route_result_invariant ..
    split
    · split
      · exact route_result_invariant ..
      · exact distance_matrix_result_invariant ..
    split
    · exact match_trace_result_invariant ..
    · exact result_invariant_of_error rfl rfl
  · unfold handle_tiles_tool
    split
    · exact result_invariant_of_success rfl rfl
    split
    · split
      · exact result_invariant_of_error rfl rfl
      · exact result_invariant_of_success rfl rfl
    split
    · split
      · exact result_invariant_of_error rfl rfl
      · exact result_invariant_of_success rfl rfl
    · exact result_invariant_of_error rfl rfl

/-- Witness for C3: the invariant theorem evaluated at a concrete world,
tool name and arguments. -/
theorem handlers_result_invariant_witness :
    result_invariant (handle_geocoding_tool test_world "poi_search" { query := some "cafe" })
    ∧ result_invariant (handle_routing_tool test_world "route" {})
    ∧ result_invariant (handle_tiles_tool "get_tile_attribution" { provider_id := some "usgs_topo" }) :=
  handlers_result_invariant test_world "poi_search" { query := some "cafe" }
    |>.imp id (fun _ =>
      ⟨(handlers_result_invariant test_world "route" {}).2.1,
       (handlers_result_invariant test_world "get_tile_attribution"
         { provider_id := some "usgs_topo" }).2.2⟩)

/-- A provider catalog entry whose name collides with the routing tool
named route. -/
def colliding_spec : ToolSpecification :=
  { name := "route", description := "a second tool named route", parameters := .obj [] }

/-- Counterexample for C2: with a geocoding catalog whose single entry is
named route — colliding with the routing provider's route — orchestrator
construction still succeeds (there is no validation in _build_tools or
__init__), and the assembled catalog contains two distinct tools with the
same name, so the claim that construction fails at startup and that all
names are pairwise distinct is false of the code. -/
theorem build_tools_collision_counterexample :
    Orchestrator.init_orchestrator [colliding_spec] get_routing_tools get_tiles_tools
      = .ok (Orchestrator.build_tools_from [colliding_spec] get_routing_tools get_tiles_tools)
    ∧ ¬ ((Orchestrator.build_tools_from [colliding_spec] get_routing_tools get_tiles_tools).map
          ToolSpecification.name).Pairwise (· ≠ ·) := by
  refine ⟨rfl, ?_⟩
  intro h
  have : ("route" : String) ≠ "route" := by
    have hmap : (Orchestrator.build_tools_from [colliding_spec] get_routing_tools get_tiles_tools).map
        ToolSpecification.name
        = ["route", "route", "distance_matrix", "match_trace", "list_tile_providers",
           "get_tile_provider_info", "get_tile_attribution"] := rfl
    rw [hmap] at h
    exact (List.pairwise_cons.mp h).1 "route" (by simp)
  exact this rfl

/-- C2 (amended): orchestrator construction performs no duplicate-name
validation and succeeds on every input — a colliding name would be
silently shadowed by first-match category routing rather than rejected —
but the catalog actually assembled from the three real providers consists
of the nine known tool names, which are pairwise distinct. -/
theorem build_tools_no_validation_names_distinct :
    (∀ geocoding routing tiles, Orchestrator.init_orchestrator geocoding routing tiles
        = .ok (Orchestrator.build_tools_from geocoding routing tiles))
    ∧ Orchestrator.build_tools.map ToolSpecification.name
        = ["forward_geocode", "reverse_geocode", "poi_search",
           "route", "distance_matrix", "match_trace",
           "list_tile_providers", "get_tile_provider_info", "get_tile_attribution"]
    ∧ (Orchestrator.build_tools.map ToolSpecification.name).Pairwise (· ≠ ·) := by
  refine ⟨fun _ _ _ => rfl, rfl, ?_⟩
  have h : Orchestrator.build_tools.map ToolSpecification.name
      = ["forward_geocode", "reverse_geocode", "poi_search",
         "route", "distance_matrix", "match_trace",
         "list_tile_providers", "get_tile_provider_info", "get_tile_attribution"] := rfl
  rw [h]
  decide

/-- The pattern list is a contained segment of any list it prefixes. -/
theorem charsContain_of_charsPrefix (pat l : List Char) (h : charsPrefix pat l = true) :
    charsContain pat l = true := by
  cases l with
  | nil => simpa [charsContain] using h
  | cons c rest => simp [charsContain, h]

/-- Every character list prefixes itself. -/
theorem charsPrefix_self (l : List Char) : charsPrefix l l = true := by
  induction l with
  | nil => rfl
  | cons a as ih => simp [charsPrefix, ih]

/-- A pattern is contained in any list obtained by prepending to it. -/
theorem charsContain_append_self (pre pat : List Char) :
    charsContain pat (pre ++ pat) = true := by
  induction pre with
  | nil => simpa using charsContain_of_charsPrefix pat pat (charsPrefix_self pat)
  | cons c rest ih => simp [charsContain, ih]

/-- Appending a string on the left preserves substring containment of the
right operand. -/
theorem strContains_append_self (s t : String) : strContains (s ++ t) t = true := by
  unfold strContains
  have h : (s ++ t).toList = s.toList ++ t.toList := by
    simp [String.toList]
  rw [h]
  exact charsContain_append_self s.toList t.toList

/-- The nine tool names known to the dispatcher, in catalog order. -/
def known_tool_names : List String :=
  ["forward_geocode", "reverse_geocode", "poi_search",
   "route", "distance_matrix", "match_trace",
   "list_tile_providers", "get_tile_provider_info", "get_tile_attribution"]

/-- C4: for every tool name outside the nine known names and any arguments,
the dispatcher returns the unknown-tool error envelope whose message
contains the offending name; being a total function, it never raises. -/
theorem execute_tool_unknown_name (w : World) (tool_name : String) (tool_input : Args)
    (h : tool_name ∉ known_tool_names) :
    Orchestrator.execute_tool w tool_name tool_input
      = { status := "error", message := some ("Unknown tool: " ++ tool_name) }
    ∧ strContains ("Unknown tool: " ++ tool_name) tool_name = true := by
  constructor
  · simp only [known_tool_names, List.mem_cons, List.not_mem_nil, or_false, not_or] at h
    obtain ⟨h1, h2, h3, h4, h5, h6, h7, h8, h9⟩ := h
    unfold Orchestrator.execute_tool
    simp [h1, h2, h3, h4, h5, h6, h7, h8, h9]
  · exact strContains_append_self "Unknown tool: " tool_name

/-- Witness for C4: the dispatcher theorem evaluated at the unknown name
teleport. -/
theorem execute_tool_unknown_name_witness :
    Orchestrator.execute_tool test_world "teleport" {}
      = { status := "error", message := some ("Unknown tool: " ++ "teleport") }
    ∧ strContains ("Unknown tool: " ++ "teleport") "teleport" = true :=
  execute_tool_unknown_name test_world "teleport" {} (by decide)

/-- Lookup of a key in the data payload of a result (absent payload has no
keys). -/
def data_lookup (r : ToolResponse) (key : String) : Option JVal :=
  (r.data.getD []).lookup key

/-- C9: a distance_matrix invocation with exactly one source and one
destination is served by the single-pair route path; its successful result
reports both distance_meters and duration_seconds, whereas the raw
multi-point table path never has a distance_meters field. -/
theorem distance_matrix_single_pair (w : World) (tool_input : Args) (s d : Rat × Rat)
    (hs : tool_input.sources = some [s]) (hd : tool_input.destinations = some [d]) :
    handle_routing_tool w "distance_matrix" tool_input
        = OSRMClient.route w s.1 s.2 d.1 d.2 (tool_input.profile.getD "car")
    ∧ (∀ body r0 rest,
        w.routeHttp s.1 s.2 d.1 d.2 (tool_input.profile.getD "car") = .ok body →
        body.routes = r0 :: rest →
        data_lookup (handle_routing_tool w "distance_matrix" tool_input) "distance_meters"
            = some (.num (r0.distance.getD 0))
        ∧ data_lookup (handle_routing_tool w "distance_matrix" tool_input) "duration_seconds"
            = some (.num (r0.duration.getD 0)))
    ∧ (∀ sources destinations profile,
        data_lookup (OSRMClient.distance_matrix w sources destinations profile)
          "distance_meters" = none) := by
  have hroute : handle_routing_tool w "distance_matrix" tool_input
      = OSRMClient.route w s.1 s.2 d.1 d.2 (tool_input.profile.getD "car") := by
    unfold handle_routing_tool
    rw [hs, hd]
    simp
  refine ⟨hroute, ?_, ?_⟩
  · intro body r0 rest hhttp hroutes
    rw [hroute]
    unfold OSRMClient.route
    rw [hhttp]
    dsimp only
    rw [hroutes]
    dsimp only
    constructor
    · simp [data_lookup, List.lookup]
    · simp [data_lookup, List.lookup]
  · intro sources destinations profile
    unfold OSRMClient.distance_matrix
    split
    · simp [data_lookup]
    · rcases w.tableHttp sources destinations profile with _ | e | body <;> try dsimp only
      · simp [data_lookup]
      · simp [data_lookup]
      · split
        · simp [data_lookup]
        · simp [data_lookup, List.lookup]

/-- The single-pair arguments of the C9 witness. -/
def pair_args : Args :=
  { sources := some [(1, 2)], destinations := some [(3, 4)] }

/-- Witness for C9: the single-pair theorem evaluated at a concrete
one-source, one-destination arguments record. -/
theorem distance_matrix_single_pair_witness :
    pair_args.sources = some [((1 : Rat), (2 : Rat))]
    ∧ pair_args.destinations = some [((3 : Rat), (4 : Rat))]
    ∧ handle_routing_tool test_world "distance_matrix" pair_args
        = OSRMClient.route test_world 1 2 3 4 (pair_args.profile.getD "car")
    ∧ data_lookup (OSRMClient.distance_matrix test_world [(1, 2), (5, 6)] [(3, 4)] "car")
        "distance_meters" = none :=
  ⟨rfl, rfl,
   (distance_matrix_single_pair test_world pair_args (1, 2) (3, 4) rfl rfl).1,
   (distance_matrix_single_pair test_world pair_args (1, 2) (3, 4) rfl rfl).2.2
     [(1, 2), (5, 6)] [(3, 4)] "car"⟩

/-- C10: whenever the poi_search radius loop finds at least one element,
the result is a success whose results list is the distance-sorted
formatted list truncated to at most 10 entries, sorted in non-decreasing
order of distance_meters, while total_found reports the full formatted
count before truncation. -/
theorem poi_search_sorted_top10 (w : World) (query : String)
    (latitude longitude radius : Rat) (e : OsmElement) (es : List OsmElement)
    (h : (NominatimClient.poi_found w query latitude longitude radius).2 = e :: es) :
    (NominatimClient.poi_search w query latitude longitude radius).status = "success"
    ∧ data_lookup (NominatimClient.poi_search w query latitude longitude radius) "results"
        = some (.arr (((NominatimClient.sorted_results
            (NominatimClient.formatted_results w latitude longitude (e :: es))).take 10).map
              NominatimClient.poi_entry_json))
    ∧ ((NominatimClient.sorted_results
          (NominatimClient.formatted_results w latitude longitude (e :: es))).take 10).length ≤ 10
    ∧ ((NominatimClient.sorted_results
          (NominatimClient.formatted_results w latitude longitude (e :: es))).take 10).Pairwise
        (fun a b => a.distance_meters ≤ b.distance_meters)
    ∧ data_lookup (NominatimClient.poi_search w query latitude longitude radius) "total_found"
        = some (.num (NominatimClient.formatted_results w latitude longitude (e :: es)).length) := by
  have hsorted : (NominatimClient.sorted_results
      (NominatimClient.formatted_results w latitude longitude (e :: es))).Pairwise
        (fun a b => a.distance_meters ≤ b.distance_meters) := by
    have hs := @List.sorted_mergeSort NominatimClient.POIEntry
      (fun a b => decide (a.distance_meters ≤ b.distance_meters))
      (fun a b c hab hbc => by
        simp only [decide_eq_true_eq] at *
        exact le_trans hab hbc)
      (fun a b => by
        simp only [Bool.or_eq_true, decide_eq_true_eq]
        exact Int.le_total a.distance_meters b.distance_meters)
      (NominatimClient.formatted_results w latitude longitude (e :: es))
    unfold NominatimClient.sorted_results
    exact hs.imp (fun hab => by simpa using hab)
  have htake : ((NominatimClient.sorted_results
      (NominatimClient.formatted_results w latitude longitude (e :: es))).take 10).Pairwise
        (fun a b => a.distance_meters ≤ b.distance_meters) :=
    hsorted.sublist (List.take_sublist 10 _)
  have hps : NominatimClient.poi_search w query latitude longitude radius
      = { status := "success"
          data := some [("results", .arr
                          (((NominatimClient.sorted_results
                              (NominatimClient.formatted_results w latitude longitude (e :: es))).take 10).map
                            NominatimClient.poi_entry_json)),
                        ("query", .str query),
                        ("center", .arr [.num latitude, .num longitude]),
                        ("search_radius_meters", .num (pyInt (NominatimClient.poi_found w query latitude longitude radius).1)),
                        ("total_found", .num (NominatimClient.formatted_results w latitude longitude (e :: es)).length)]
          message := some ("Found " ++ toString (NominatimClient.formatted_results w latitude longitude (e :: es)).length
            ++ " " ++ query ++ "(s) near the location (showing top 10)")
          usage := some () } := by
    unfold NominatimClient.poi_search
    rw [h]
  refine ⟨by rw [hps], ?_, ?_, htake, ?_⟩
  · rw [hps]
    simp [data_lookup, List.lookup]
  · simp [List.length_take]
  · rw [hps]
    simp [data_lookup, List.lookup]

/-- Witness for C10: the poi_search theorem evaluated on a concrete world
whose Overpass stub returns two cafes in reverse distance order. -/
theorem poi_search_sorted_top10_witness :
    (NominatimClient.poi_found test_world "cafe" 0 0 1000).2 = [test_element2, test_element]
    ∧ (NominatimClient.poi_search test_world "cafe" 0 0 1000).status = "success"
    ∧ ((NominatimClient.sorted_results
          (NominatimClient.formatted_results test_world 0 0 [test_element2, test_element])).take 10).Pairwise
        (fun a b => a.distance_meters ≤ b.distance_meters) :=
  ⟨rfl,
   (poi_search_sorted_top10 test_world "cafe" 0 0 1000 test_element2 [test_element] rfl).1,
   (poi_search_sorted_top10 test_world "cafe" 0 0 1000 test_element2 [test_element] rfl).2.2.2.1⟩

/-- C5: when a completion-service submission exceeds the bounded wait,
process_query aborts the whole query at once, returning the fixed timeout
message and the records accumulated before that call, with that submission
logged exactly once (no retry). -/
theorem submission_timeout_aborts (svc : Orchestrator.Service) (w : World)
    (fuel call_index : Nat) (messages : List (Orchestrator.Turn Args))
    (records : List Orchestrator.ToolCallRecord)
    (submitted : List (List (Orchestrator.Turn Args)))
    (h : svc call_index (Orchestrator.effective_messages messages)
      = Orchestrator.SubmitOutcome.timeout) :
    Orchestrator.run_loop svc w (fuel + 1) call_index messages records submitted
      = .done Orchestrator.timeout_message records
          (submitted ++ [Orchestrator.effective_messages messages]) := by
  unfold Orchestrator.run_loop
  rw [h]

/-- The completion-service stub of the C5 witness: one tool-call turn,
then a timeout. -/
def tool_then_timeout_service : Orchestrator.Service := fun i _ =>
  if i = 0 then
    .reply ⟨"tool_calls", none, [⟨"call_9", "list_tile_providers", {}⟩]⟩
  else .timeout

/-- Witness for C5: the timeout theorem evaluated at a concrete state with
one already-accumulated record. -/
theorem submission_timeout_aborts_witness :
    tool_then_timeout_service 1
        (Orchestrator.effective_messages
          [Orchestrator.Turn.system Orchestrator.system_prompt, Orchestrator.Turn.user "hi"])
      = Orchestrator.SubmitOutcome.timeout
    ∧ Orchestrator.run_loop tool_then_timeout_service test_world 1 1
        [Orchestrator.Turn.system Orchestrator.system_prompt, Orchestrator.Turn.user "hi"]
        [⟨"list_tile_providers", {}, Orchestrator.execute_tool test_world "list_tile_providers" {}⟩]
        []
      = .done Orchestrator.timeout_message
          [⟨"list_tile_providers", {}, Orchestrator.execute_tool test_world "list_tile_providers" {}⟩]
          [[Orchestrator.Turn.system Orchestrator.system_prompt, Orchestrator.Turn.user "hi"]] :=
  ⟨rfl,
   submission_timeout_aborts tool_then_timeout_service test_world 0 1
     [Orchestrator.Turn.system Orchestrator.system_prompt, Orchestrator.Turn.user "hi"]
     [⟨"list_tile_providers", {}, Orchestrator.execute_tool test_world "list_tile_providers" {}⟩]
     [] rfl⟩

/-- The completion service that always raises the capacity-exceeded
condition. -/
def capacity_service : Orchestrator.Service := fun _ _ =>
  .exc "context_length_exceeded"

/-- Counterexample for C1: with a completion service that always raises
the capacity-exceeded condition, process_query submits the initial
transcript, collapses to the first two turns and resubmits exactly once,
and then the second capacity-exceeded exception propagates (the inner
except clause catches only the timeout error), so the claim that the
failure of the single resubmission returns the timeout/failure message
rather than raising is false of the code. -/
theorem capacity_always_raises_counterexample :
    Orchestrator.process_query capacity_service test_world 5 "hi"
      = .raised "context_length_exceeded"
          [[Orchestrator.Turn.system Orchestrator.system_prompt, Orchestrator.Turn.user "hi"],
           [Orchestrator.Turn.system Orchestrator.system_prompt, Orchestrator.Turn.user "hi"]] := by
  rfl

/-- C1 (amended): when a submission fails with the capacity-exceeded
condition, process_query collapses the transcript to exactly its first two
turns and resubmits exactly once with that minimal transcript; if that
single resubmission times out, it returns the timeout message together
with the tool-call records accumulated so far, while any other failure of
the resubmission — including a second capacity-exceeded error — propagates
as an exception. -/
theorem capacity_overflow_retry (svc : Orchestrator.Service) (w : World)
    (fuel call_index : Nat) (messages : List (Orchestrator.Turn Args))
    (records : List Orchestrator.ToolCallRecord)
    (submitted : List (List (Orchestrator.Turn Args))) (e : String)
    (he : svc call_index (Orchestrator.effective_messages messages)
      = Orchestrator.SubmitOutcome.exc e)
    (hcap : strContains e "context_length_exceeded" = true) :
    (svc (call_index + 1) ((Orchestrator.effective_messages messages).take 2)
        = Orchestrator.SubmitOutcome.timeout →
      Orchestrator.run_loop svc w (fuel + 1) call_index messages records submitted
        = .done Orchestrator.timeout_message records
            (submitted ++ [Orchestrator.effective_messages messages,
                           (Orchestrator.effective_messages messages).take 2]))
    ∧ (∀ e2, svc (call_index + 1) ((Orchestrator.effective_messages messages).take 2)
        = Orchestrator.SubmitOutcome.exc e2 →
      Orchestrator.run_loop svc w (fuel + 1) call_index messages records submitted
        = .raised e2
            (submitted ++ [Orchestrator.effective_messages messages,
                           (Orchestrator.effective_messages messages).take 2])) := by
  constructor
  · intro ht
    unfold Orchestrator.run_loop
    rw [he]
    dsimp only
    rw [if_pos hcap, ht]
  · intro e2 h2
    unfold Orchestrator.run_loop
    rw [he]
    dsimp only
    rw [if_pos hcap, h2]

/-- The completion-service stub of the C1 witness: a capacity-exceeded
error, then a timeout. -/
def capacity_then_timeout_service : Orchestrator.Service := fun i _ =>
  if i = 0 then .exc "Error code 400: context_length_exceeded" else .timeout

/-- Witness for C1: the amended capacity theorem evaluated on a stub whose
first call raises capacity-exceeded and whose resubmission times out. -/
theorem capacity_overflow_retry_witness :
    capacity_then_timeout_service 0
        (Orchestrator.effective_messages
          [Orchestrator.Turn.system Orchestrator.system_prompt, Orchestrator.Turn.user "hi"])
      = Orchestrator.SubmitOutcome.exc "Error code 400: context_length_exceeded"
    ∧ strContains "Error code 400: context_length_exceeded" "context_length_exceeded" = true
    ∧ Orchestrator.run_loop capacity_then_timeout_service test_world 1 0
        [Orchestrator.Turn.system Orchestrator.system_prompt, Orchestrator.Turn.user "hi"] [] []
      = .done Orchestrator.timeout_message []
          [[Orchestrator.Turn.system Orchestrator.system_prompt, Orchestrator.Turn.user "hi"],
           [Orchestrator.Turn.system Orchestrator.system_prompt, Orchestrator.Turn.user "hi"]] :=
  ⟨rfl, by rfl,
   (capacity_overflow_retry capacity_then_timeout_service test_world 0 0
     [Orchestrator.Turn.system Orchestrator.system_prompt, Orchestrator.Turn.user "hi"] [] []
     "Error code 400: context_length_exceeded" rfl (by rfl)).1 rfl⟩

/-- The response-interpretation step only extends the submission log that
its continuation extends. -/
theorem after_response_submitted_prefix (w : World) (r : Orchestrator.Reply)
    (messages : List (Orchestrator.Turn Args))
    (records : List Orchestrator.ToolCallRecord)
    (submitted : List (List (Orchestrator.Turn Args)))
    (k : List (Orchestrator.Turn Args) → List Orchestrator.ToolCallRecord →
      Orchestrator.LoopOutcome)
    (hk : ∀ ms rs, ∃ tail, (k ms rs).submittedLog = submitted ++ tail) :
    ∃ tail, (Orchestrator.after_response w r messages records submitted k).submittedLog
      = submitted ++ tail := by
  unfold Orchestrator.after_response
  split
  · exact ⟨[], by simp [Orchestrator.LoopOutcome.submittedLog]⟩
  · split
    · exact ⟨[], by simp [Orchestrator.LoopOutcome.submittedLog]⟩
    · exact hk _ _

/-- The loop only appends to the submission log it is given. -/
theorem run_loop_submitted_prefix (svc : Orchestrator.Service) (w : World) :
    ∀ (fuel call_index : Nat) (messages : List (Orchestrator.Turn Args))
      (records : List Orchestrator.ToolCallRecord)
      (submitted : List (List (Orchestrator.Turn Args))),
      ∃ tail, (Orchestrator.run_loop svc w fuel call_index messages records submitted).submittedLog
        = submitted ++ tail := by
  intro fuel
  induction fuel with
  | zero =>
      intro ci msgs recs sub
      exact ⟨[], by simp [Orchestrator.run_loop, Orchestrator.LoopOutcome.submittedLog]⟩
  | succ n ih =>
      intro ci msgs recs sub
      unfold Orchestrator.run_loop
      rcases hsvc : svc ci (Orchestrator.effective_messages msgs) with _ | e | r <;> dsimp only
      · exact ⟨[Orchestrator.effective_messages msgs],
          by simp [Orchestrator.LoopOutcome.submittedLog]⟩
      · split
        · rcases h2 : svc (ci + 1) ((Orchestrator.effective_messages msgs).take 2)
            with _ | e2 | r2 <;> dsimp only
          · exact ⟨[Orchestrator.effective_messages msgs,
              (Orchestrator.effective_messages msgs).take 2],
              by simp [Orchestrator.LoopOutcome.submittedLog]⟩
          · exact ⟨[Orchestrator.effective_messages msgs,
              (Orchestrator.effective_messages msgs).take 2],
              by simp [Orchestrator.LoopOutcome.submittedLog]⟩
          · obtain ⟨tail, htail⟩ := after_response_submitted_prefix w r2
              ((Orchestrator.effective_messages msgs).take 2) recs
              (sub ++ [Orchestrator.effective_messages msgs,
                       (Orchestrator.effective_messages msgs).take 2])
              (fun ms rs => Orchestrator.run_loop svc w n (ci + 2) ms rs
                (sub ++ [Orchestrator.effective_messages msgs,
                         (Orchestrator.effective_messages msgs).take 2]))
              (fun ms rs => ih (ci + 2) ms rs _)
            exact ⟨[Orchestrator.effective_messages msgs,
              (Orchestrator.effective_messages msgs).take 2] ++ tail,
              by rw [htail, List.append_assoc]⟩
        · exact ⟨[Orchestrator.effective_messages msgs],
            by simp [Orchestrator.LoopOutcome.submittedLog]⟩
      · obtain ⟨tail, htail⟩ := after_response_submitted_prefix w r
          (Orchestrator.effective_messages msgs) recs
          (sub ++ [Orchestrator.effective_messages msgs])
          (fun ms rs => Orchestrator.run_loop svc w n (ci + 1) ms rs
            (sub ++ [Orchestrator.effective_messages msgs]))
          (fun ms rs => ih (ci + 1) ms rs _)
        exact ⟨[Orchestrator.effective_messages msgs] ++ tail,
          by rw [htail, List.append_assoc]⟩

/-- On every non-empty-fuel iteration, the first transcript the loop adds
to the submission log is the effective (possibly pruned) transcript of the
iteration. -/
theorem run_loop_submitted_head (svc : Orchestrator.Service) (w : World)
    (fuel call_index : Nat) (messages : List (Orchestrator.Turn Args))
    (records : List Orchestrator.ToolCallRecord)
    (submitted : List (List (Orchestrator.Turn Args))) :
    ∃ tail, (Orchestrator.run_loop svc w (fuel + 1) call_index messages records submitted).submittedLog
      = submitted ++ Orchestrator.effective_messages messages :: tail := by
  unfold Orchestrator.run_loop
  rcases hsvc : svc call_index (Orchestrator.effective_messages messages) with _ | e | r <;> dsimp only
  · exact ⟨[], by simp [Orchestrator.LoopOutcome.submittedLog]⟩
  · split
    · rcases h2 : svc (call_index + 1) ((Orchestrator.effective_messages messages).take 2)
        with _ | e2 | r2 <;> dsimp only
      · exact ⟨[(Orchestrator.effective_messages messages).take 2],
          by simp [Orchestrator.LoopOutcome.submittedLog]⟩
      · exact ⟨[(Orchestrator.effective_messages messages).take 2],
          by simp [Orchestrator.LoopOutcome.submittedLog]⟩
      · obtain ⟨tail, htail⟩ := after_response_submitted_prefix w r2
          ((Orchestrator.effective_messages messages).take 2) records
          (submitted ++ [Orchestrator.effective_messages messages,
                         (Orchestrator.effective_messages messages).take 2])
          (fun ms rs => Orchestrator.run_loop svc w fuel (call_index + 2) ms rs
            (submitted ++ [Orchestrator.effective_messages messages,
                           (Orchestrator.effective_messages messages).take 2]))
          (fun ms rs => run_loop_submitted_prefix svc w fuel (call_index + 2) ms rs _)
        exact ⟨[(Orchestrator.effective_messages messages).take 2] ++ tail,
          by rw [htail]; simp⟩
    · exact ⟨[], by simp [Orchestrator.LoopOutcome.submittedLog]⟩
  · obtain ⟨tail, htail⟩ := after_response_submitted_prefix w r
      (Orchestrator.effective_messages messages) records
      (submitted ++ [Orchestrator.effective_messages messages])
      (fun ms rs => Orchestrator.run_loop svc w fuel (call_index + 1) ms rs
        (submitted ++ [Orchestrator.effective_messages messages]))
      (fun ms rs => run_loop_submitted_prefix svc w fuel (call_index + 1) ms rs _)
    exact ⟨tail, by rw [htail]; simp⟩

/-- C7: whenever the transcript length exceeds the fixed threshold of 14
turns at the start of a loop iteration, the transcript actually submitted
in that iteration is exactly the first two turns of the transcript — no
intermediate assistant or tool turns are retained. -/
theorem prune_on_overflow (svc : Orchestrator.Service) (w : World)
    (fuel call_index : Nat) (messages : List (Orchestrator.Turn Args))
    (records : List Orchestrator.ToolCallRecord)
    (h : messages.length > 14) :
    Orchestrator.effective_messages messages = messages.take 2
    ∧ (Orchestrator.run_loop svc w (fuel + 1) call_index messages records []).submittedLog.head?
        = some (messages.take 2) := by
  have he : Orchestrator.effective_messages messages = messages.take 2 := by
    unfold Orchestrator.effective_messages Orchestrator.prune_message_history
    rw [if_pos h, if_neg (by omega)]
  refine ⟨he, ?_⟩
  obtain ⟨tail, htail⟩ := run_loop_submitted_head svc w fuel call_index messages records []
  rw [htail, he]
  simp

/-- A 15-turn transcript exceeding the pruning threshold. -/
def long_transcript : List (Orchestrator.Turn Args) :=
  [Orchestrator.Turn.system Orchestrator.system_prompt, Orchestrator.Turn.user "hi"]
    ++ List.replicate 13 (Orchestrator.Turn.user "filler")

/-- Witness for C7: the pruning theorem evaluated on a concrete 15-turn
transcript. -/
theorem prune_on_overflow_witness :
    long_transcript.length > 14
    ∧ Orchestrator.effective_messages long_transcript = long_transcript.take 2
    ∧ (Orchestrator.run_loop capacity_service test_world 1 0
        long_transcript [] []).submittedLog.head?
      = some (long_transcript.take 2) :=
  ⟨by decide,
   (prune_on_overflow capacity_service test_world 0 0 long_transcript [] (by decide)).1,
   (prune_on_overflow capacity_service test_world 0 0 long_transcript [] (by decide)).2⟩

/-- The in-order record/turn unfolding of the dispatch loop over the tool
calls of one model turn. -/
theorem process_tool_calls_spec (w : World) :
    ∀ (calls : List (Orchestrator.ToolCall Args))
      (records : List Orchestrator.ToolCallRecord)
      (messages : List (Orchestrator.Turn Args)),
      Orchestrator.process_tool_calls w calls records messages
        = (records ++ calls.map (fun tc =>
             ⟨tc.name, tc.arguments, Orchestrator.execute_tool w tc.name tc.arguments⟩),
           messages ++ calls.map (fun tc =>
             Orchestrator.Turn.toolOut tc.id (Orchestrator.execute_tool w tc.name tc.arguments))) := by
  intro calls
  induction calls with
  | nil =>
      intro records messages
      simp [Orchestrator.process_tool_calls]
  | cons tc rest ih =>
      intro records messages
      simp [Orchestrator.process_tool_calls, ih]

/-- The route arguments of the C6 scenario. -/
def route_args : Args :=
  { start_latitude := some 1, start_longitude := some 2,
    end_latitude := some 3, end_longitude := some 4 }

/-- The single route request of the C6 scenario. -/
def route_call : Orchestrator.ToolCall Args := ⟨"call_1", "route", route_args⟩

/-- The completion-service stub of the C6 scenario: one route request,
then a final answer. -/
def route_stub_service : Orchestrator.Service := fun i _ =>
  if i = 0 then .reply ⟨"tool_calls", none, [route_call]⟩
  else .reply ⟨"stop", some "Here is your route.", []⟩

/-- The result of dispatching the scenario's route call against the test
world. -/
def route_result : ToolResponse :=
  Orchestrator.execute_tool test_world "route" route_args

/-- The transcript submitted on the scenario's first call. -/
def scenario_first_transcript : List (Orchestrator.Turn Args) :=
  [Orchestrator.Turn.system Orchestrator.system_prompt,
   Orchestrator.Turn.user "from A to B"]

/-- The transcript submitted on the scenario's second call: exactly four
turns, in order system, user, assistant-with-requests, tool-result. -/
def scenario_second_transcript : List (Orchestrator.Turn Args) :=
  [Orchestrator.Turn.system Orchestrator.system_prompt,
   Orchestrator.Turn.user "from A to B",
   Orchestrator.Turn.assistantCalls [route_call],
   Orchestrator.Turn.toolOut "call_1" route_result]

/-- C6: with a completion service that requests exactly one route call on
the first turn and stops on the second, process_query returns exactly one
ToolCallRecord for route, and the transcript submitted on the second call
has exactly 4 turns in order (system, user, assistant-with-requests,
tool-result); moreover the requests of one model turn are dispatched
sequentially in the order received, each appending its record and its
tool-result turn before the next is dispatched. -/
theorem single_route_call_scenario :
    Orchestrator.process_query route_stub_service test_world 2 "from A to B"
      = .done "Here is your route."
          [⟨"route", route_args, route_result⟩]
          [scenario_first_transcript, scenario_second_transcript]
    ∧ scenario_second_transcript.length = 4
    ∧ (∀ (w : World) (calls : List (Orchestrator.ToolCall Args))
        (records : List Orchestrator.ToolCallRecord)
        (messages : List (Orchestrator.Turn Args)),
        Orchestrator.process_tool_calls w calls records messages
          = (records ++ calls.map (fun tc =>
               ⟨tc.name, tc.arguments, Orchestrator.execute_tool w tc.name tc.arguments⟩),
             messages ++ calls.map (fun tc =>
               Orchestrator.Turn.toolOut tc.id (Orchestrator.execute_tool w tc.name tc.arguments)))) :=
  ⟨rfl, rfl, process_tool_calls_spec⟩
